import Mathlib

/-!
Verification of the shoe-product-discovery tool layer (`tools.py`, `models.py`)
and the tool-calling orchestration loop (`agent.py`).

Python strings are modelled as Lean `String`s; the string operations the code
uses (`str.split`, `str.strip`, slicing `s[:n]`) are given executable
character-list implementations below.  Python `float` relevance scores are
modelled as rationals (`ℚ`).  Network calls (the Tavily search client, the
language-model invocation) are modelled as explicit parameters: a search
backend is a function from the query string to `Except String TavilyResponse`
(`.error e` standing for a raised exception with message `e`), and the model
is a script — the finite list of responses successive `ainvoke` calls return.
A raised Python exception is an `Except.error` carrying the exception text.
-/

/-- Python `s.split(sep)` over the character list: every occurrence of `sep`
separates fields, empty fields are kept, and the empty string yields one
empty field. -/
def splitChars (sep : Char) : List Char → List (List Char)
  | [] => [[]]
  | c :: cs =>
    match splitChars sep cs with
    | [] => [[c]]
    | h :: t => if c = sep then [] :: h :: t else (c :: h) :: t

/-- Python `s.split(sep)` on strings. -/
def pySplit (sep : Char) (s : String) : List String :=
  (splitChars sep s.data).map String.mk

/-- Python `s.strip()`: drop leading and trailing whitespace characters. -/
def pyStrip (s : String) : String :=
  String.mk (((s.data.dropWhile Char.isWhitespace).reverse.dropWhile Char.isWhitespace).reverse)

/-- Python `s[:n]`: the first `n` characters of `s`. -/
def pySlice (s : String) (n : Nat) : String :=
  String.mk (s.data.take n)

/-! ## models.py — specification types -/

/-- A source URL with extracted content (`models.ShoeSource`). -/
structure ShoeSource where
  title : String
  url : String
  content : String
  score : ℚ := 0
deriving Repr, DecidableEq

/-- Specifications for a running shoe (`models.ShoeSpecs`). -/
structure ShoeSpecs where
  name : String
  heel_to_toe_drop : Option String := none
  stack_height : Option String := none
  cushioning : Option String := none
  weight : Option String := none
  summary : String
  sources : List ShoeSource := []
deriving Repr, DecidableEq

/-- Result from a shoe search query (`models.ShoeSearchResult`). -/
structure ShoeSearchResult where
  query : String
  shoes : List ShoeSpecs := []
  raw_answer : Option String := none
deriving Repr, DecidableEq

/-! ## The search-provider response

A Tavily response is read by the code only through `response.get("answer", …)`
and `response.get("results", [])`, each raw result through `r.get("title","")`,
`r.get("url","")`, `r.get("content","")` and `r.get("score", 0)`; absent keys
are modelled as `none`, `dict.get` with a default as `Option.getD`. -/

/-- One raw provider result dictionary. -/
structure RawResult where
  title : Option String := none
  url : Option String := none
  content : Option String := none
  score : Option ℚ := none
deriving Repr, DecidableEq

/-- A provider response dictionary. -/
structure TavilyResponse where
  answer : Option String := none
  results : List RawResult := []
deriving Repr, DecidableEq

/-- A search backend: given the query string, either a response or the text of
a raised exception.  Stands for `client.search` / `async_client.search`
(search depth, result cap, answer synthesis and the domain allow-list are part
of the opaque provider call and do not affect the parsing under proof). -/
def SearchBackend : Type := String → Except String TavilyResponse

/-! ## tools.py — ShoeSearchTool (single-shoe, lines 43–110) -/

/-- Build an optimized search query for shoe specs
(`ShoeSearchTool._build_query`, tools.py:66–68). -/
def ShoeSearchTool.build_query (shoe_name : String) : String :=
  shoe_name ++ " running shoe specs heel drop stack height weight"

/-- Parse a Tavily response into structured ShoeSpecs
(`ShoeSearchTool._parse_response`, tools.py:70–87): keep the raw results with
score > 0.5 in provider order, each with content truncated to its first 500
characters, then keep the first 3 of those. -/
def ShoeSearchTool.parse_response (shoe_name : String) (response : TavilyResponse) : ShoeSpecs :=
  let sources : List ShoeSource :=
    (response.results.filter (fun r => decide ((r.score.getD 0) > (0.5 : ℚ)))).map
      (fun r =>
        { title := r.title.getD ""
          url := r.url.getD ""
          content := pySlice (r.content.getD "") 500
          score := r.score.getD 0 })
  { name := shoe_name
    summary := response.answer.getD "No specifications found."
    sources := sources.take 3 }

/-- Modelled from the spec: the pydantic `model_dump_json` (library code, not in
the repository) serializes a record "to its external representation"; every
claim treats the serialized text as opaque Tool Result content, so it is
modelled as a plain rendering of the fields. -/
def ShoeSource.dump (s : ShoeSource) : String :=
  "source(" ++ s.title ++ "; " ++ s.url ++ "; " ++ s.content ++ "; "
    ++ toString s.score.num ++ "/" ++ toString s.score.den ++ ")"

/-- Modelled from the spec: `ShoeSpecs.model_dump_json`, see `ShoeSource.dump`. -/
def ShoeSpecs.dump (s : ShoeSpecs) : String :=
  "specs(" ++ s.name ++ "; " ++ (s.heel_to_toe_drop.getD "None") ++ "; "
    ++ (s.stack_height.getD "None") ++ "; " ++ (s.cushioning.getD "None") ++ "; "
    ++ (s.weight.getD "None") ++ "; " ++ s.summary ++ "; "
    ++ String.intercalate ", " (s.sources.map ShoeSource.dump) ++ ")"

/-- Modelled from the spec: `ShoeSearchResult.model_dump_json`, see
`ShoeSource.dump`. -/
def ShoeSearchResult.dump (r : ShoeSearchResult) : String :=
  "result(" ++ r.query ++ "; "
    ++ String.intercalate ", " (r.shoes.map ShoeSpecs.dump) ++ "; "
    ++ (r.raw_answer.getD "None") ++ ")"

/-- Synchronous shoe search (`ShoeSearchTool._run`, tools.py:89–110): query the
backend, parse, serialize; any exception is re-raised as
`ToolException("Failed to search for <name>: <e>")`. -/
def ShoeSearchTool.runSync (search : SearchBackend) (shoe_name : String) : Except String String :=
  match search (ShoeSearchTool.build_query shoe_name) with
  | .ok response => .ok (ShoeSearchTool.parse_response shoe_name response).dump
  | .error e => .error ("Failed to search for " ++ shoe_name ++ ": " ++ e)

/-! ## tools.py — AsyncShoeSearchTool (multi-shoe, lines 113–212) -/

/-- Build an optimized search query for shoe specs
(`AsyncShoeSearchTool._build_query`, tools.py:137–139). -/
def AsyncShoeSearchTool.build_query (shoe_name : String) : String :=
  shoe_name ++ " running shoe specs heel drop stack height weight"

/-- Parse a Tavily response into structured ShoeSpecs
(`AsyncShoeSearchTool._parse_response`, tools.py:141–158; textually the same
code as `ShoeSearchTool._parse_response`). -/
def AsyncShoeSearchTool.parse_response (shoe_name : String) (response : TavilyResponse) : ShoeSpecs :=
  let sources : List ShoeSource :=
    (response.results.filter (fun r => decide ((r.score.getD 0) > (0.5 : ℚ)))).map
      (fun r =>
        { title := r.title.getD ""
          url := r.url.getD ""
          content := pySlice (r.content.getD "") 500
          score := r.score.getD 0 })
  { name := shoe_name
    summary := response.answer.getD "No specifications found."
    sources := sources.take 3 }

/-- Search for a single shoe (`AsyncShoeSearchTool._search_single`,
tools.py:160–175): a backend failure propagates as the raised exception. -/
def AsyncShoeSearchTool.search_single (search : SearchBackend) (shoe_name : String) :
    Except String ShoeSpecs :=
  (search (AsyncShoeSearchTool.build_query shoe_name)).map
    (AsyncShoeSearchTool.parse_response shoe_name)

/-- Name parsing inside `AsyncShoeSearchTool._arun` (tools.py:184–185): split
the input on commas, strip each piece, drop empty pieces, keep the first
`max_shoes`. -/
def parse_shoe_names (shoe_names : String) (max_shoes : Nat) : List String :=
  (((pySplit ',' shoe_names).map pyStrip).filter (fun n => n ≠ "")).take max_shoes

/-- Async multi-shoe search (`AsyncShoeSearchTool._arun`, tools.py:181–212),
with the serialization step split off (see `AsyncShoeSearchTool.arunStr`).
`asyncio.gather(..., return_exceptions=True)` returns the per-name outcomes in
argument order, an outcome being either the `_search_single` value or the
exception it raised; modelled as `search_single` per name, in name order.
When no valid name remains, the `ToolException("No valid shoe names
provided")` is re-wrapped by the enclosing handler into
`ToolException("Multi-shoe search failed: ...")` and raised to the caller. -/
def AsyncShoeSearchTool.arun (search : SearchBackend) (max_shoes : Nat)
    (shoe_names : String) : Except String ShoeSearchResult :=
  let names := parse_shoe_names shoe_names max_shoes
  if names.isEmpty then
    .error ("Multi-shoe search failed: " ++ "No valid shoe names provided")
  else
    let results := names.map (AsyncShoeSearchTool.search_single search)
    let shoes := (names.zip results).map (fun p =>
      match p.2 with
      | .error e => { name := p.1, summary := "Search failed: " ++ e : ShoeSpecs }
      | .ok result => result)
    .ok { query := shoe_names, shoes := shoes }

/-- The string-returning façade of `_arun` (tools.py:209,
`search_result.model_dump_json(indent=2)`). -/
def AsyncShoeSearchTool.arunStr (search : SearchBackend) (max_shoes : Nat)
    (shoe_names : String) : Except String String :=
  (AsyncShoeSearchTool.arun search max_shoes shoe_names).map ShoeSearchResult.dump

/-! ## agent.py — the orchestration loop -/

/-- The `args` dictionary of a tool call, read by `_execute_tool`
(agent.py:78–91) only through the keys `"shoe_names"` and `"shoe_name"`. -/
structure ToolArgs where
  shoe_name : Option String := none
  shoe_names : Option String := none
deriving Repr, DecidableEq

/-- One tool-call request carried by a model response
(`tool_call["name"]`, `tool_call["args"]`, `tool_call["id"]`). -/
structure ToolCall where
  name : String
  args : ToolArgs
  id : String
deriving Repr, DecidableEq

/-- One response of `llm_with_tools.ainvoke`: text content plus the list of
tool-call requests. -/
structure ModelResponse where
  content : String
  tool_calls : List ToolCall
deriving Repr, DecidableEq

/-- A conversation message, as appended to the working list in `run`
(agent.py:104–126): the system prompt, the human turn, an assistant response,
or a `{"role": "tool", "content": …, "tool_call_id": …}` entry. -/
inductive Message where
  | system (content : String)
  | human (content : String)
  | assistant (response : ModelResponse)
  | tool (content : String) (tool_call_id : String)
deriving Repr, DecidableEq

/-- The `tool_call_id` of a Tool Result message, `none` for the other roles. -/
def Message.toolId : Message → Option String
  | .tool _ tool_call_id => some tool_call_id
  | _ => none

/-- A registered tool as the loop sees it (`self.tools`): its `name` and its
`_arun` entry point.  Both concrete tools expose `_arun` (`BaseTool` supplies a
default `_arun` delegating to `_run`), so `_execute_tool` always takes its
first branch and extracts `args.get("shoe_names", args.get("shoe_name", ""))`. -/
structure RegisteredTool where
  name : String
  arun : String → Except String String

/-- Execute a tool by name (`ShoeDiscoveryAgent._execute_tool`,
agent.py:73–93): scan the registry in order for a matching name; with no
match, raise `ValueError(f"Tool {tool_name} not found")`. -/
def ShoeDiscoveryAgent.execute_tool (tools : List RegisteredTool) (tool_name : String)
    (tool_input : ToolArgs) : Except String String :=
  match tools.find? (fun t => t.name == tool_name) with
  | some tool => tool.arun (tool_input.shoe_names.getD (tool_input.shoe_name.getD ""))
  | none => .error ("Tool " ++ tool_name ++ " not found")

/-- The per-response tool pass of `run` (agent.py:116–126): execute each
tool-call request in order and append one Tool Result per request; the first
raised exception aborts the pass (there is no handler in the loop). -/
def ShoeDiscoveryAgent.execCalls (tools : List RegisteredTool) :
    List ToolCall → Except String (List Message)
  | [] => .ok []
  | tc :: rest =>
    match ShoeDiscoveryAgent.execute_tool tools tc.name tc.args with
    | .error e => .error e
    | .ok tool_result =>
      match ShoeDiscoveryAgent.execCalls tools rest with
      | .error e => .error e
      | .ok msgs => .ok (Message.tool tool_result tc.id :: msgs)

/-- One iteration of the `while True` loop in `run` (agent.py:108–126), given
the response the model invocation returned: either the final answer
(`.inr content`, when the response has no tool calls), or the working message
list for the next invocation (`.inl`), or a propagated exception. -/
def ShoeDiscoveryAgent.runStep (tools : List RegisteredTool) (messages : List Message)
    (response : ModelResponse) : Except String (List Message ⊕ String) :=
  if response.tool_calls.isEmpty then
    .ok (.inr response.content)
  else
    match ShoeDiscoveryAgent.execCalls tools response.tool_calls with
    | .error e => .error e
    | .ok toolMsgs => .ok (.inl (messages ++ [Message.assistant response] ++ toolMsgs))

/-- The `while True` loop of `run`, driven by the script of responses the
successive `llm_with_tools.ainvoke` calls return.  The result pairs the final
answer with the number of model invocations made; `none` means the script was
exhausted with the loop still running. -/
def ShoeDiscoveryAgent.runAux (tools : List RegisteredTool) :
    List ModelResponse → List Message → Nat → Except String (Option String × Nat)
  | [], _, n => .ok (none, n)
  | response :: rest, messages, n =>
    match ShoeDiscoveryAgent.runStep tools messages response with
    | .error e => .error e
    | .ok (.inr answer) => .ok (some answer, n + 1)
    | .ok (.inl messages') => ShoeDiscoveryAgent.runAux tools rest messages' (n + 1)

/-- The system prompt (agent.py:28–47), verbatim. -/
def SYSTEM_PROMPT : String :=
"You are a running shoe expert assistant. Your job is to help users find
and compare running shoe specifications.

When users ask about shoes, use the available tools to search for accurate specifications:
- Use `shoe_specs_search` for a single shoe lookup
- Use `multi_shoe_search` when comparing 2+ shoes (more efficient)

Key specs to focus on:
- Heel-to-toe drop (mm): The height difference between heel and forefoot
- Stack height (mm): Total cushioning thickness under the heel/forefoot
- Cushioning: Type and level (plush, firm, responsive, etc.)
- Weight: In ounces or grams

When presenting results:
1. Start with a brief overview of each shoe
2. Present key specs clearly (use a table for comparisons)
3. Highlight notable differences when comparing
4. Cite your sources

If a shoe isn\x27t found, suggest similar alternatives or ask for clarification."

/-- Run the agent with user input (`ShoeDiscoveryAgent.run`, agent.py:95–126):
seed the working list with the system prompt, the prior history and the new
human message, then iterate. -/
def ShoeDiscoveryAgent.run (tools : List RegisteredTool) (script : List ModelResponse)
    (user_input : String) (chat_history : List Message) : Except String (Option String × Nat) :=
  let messages := [Message.system SYSTEM_PROMPT] ++ chat_history ++ [Message.human user_input]
  ShoeDiscoveryAgent.runAux tools script messages 0

/-- The tool registry (`get_shoe_tools`, tools.py:215–219), parameterized by
the two search backends; both tools are registered with their async entry
point and the default `max_shoes = 5`. -/
def get_shoe_tools (searchS searchA : SearchBackend) : List RegisteredTool :=
  [ { name := "shoe_specs_search", arun := ShoeSearchTool.runSync searchS },
    { name := "multi_shoe_search", arun := AsyncShoeSearchTool.arunStr searchA 5 } ]

/-- A backend whose every search succeeds with an empty response. -/
def emptySearch : SearchBackend := fun _ => .ok {}

/-! ## Helper lemmas -/

/-- A successful tool pass yields one Tool Result per request, carrying the
call ids of the requests in request order. -/
lemma execCalls_ok_toolIds (tools : List RegisteredTool) :
    ∀ (calls : List ToolCall) (msgs : List Message),
      ShoeDiscoveryAgent.execCalls tools calls = .ok msgs →
      msgs.map Message.toolId = calls.map (fun tc => some tc.id) := by
  intro calls
  induction calls with
  | nil =>
    intro msgs h
    simp only [ShoeDiscoveryAgent.execCalls, Except.ok.injEq] at h
    subst h
    simp
  | cons tc rest ih =>
    intro msgs h
    simp only [ShoeDiscoveryAgent.execCalls] at h
    cases hex : ShoeDiscoveryAgent.execute_tool tools tc.name tc.args with
    | error e => rw [hex] at h; exact absurd h (by simp)
    | ok tool_result =>
      rw [hex] at h
      cases hrec : ShoeDiscoveryAgent.execCalls tools rest with
      | error e => rw [hrec] at h; exact absurd h (by simp)
      | ok msgs' =>
        rw [hrec] at h
        simp only [Except.ok.injEq] at h
        subst h
        simp only [List.map_cons, Message.toolId, ih msgs' hrec]

/-- Per-element description of the record `_arun` builds for one shoe name. -/
def shoeOutcome (search : SearchBackend) (n : String) : ShoeSpecs :=
  match AsyncShoeSearchTool.search_single search n with
  | .error e => { name := n, summary := "Search failed: " ++ e }
  | .ok result => result

/-- Zipping a list with its own map forms the per-element pairs. -/
lemma zip_self_map {α β : Type} (f : α → β) :
    ∀ l : List α, l.zip (l.map f) = l.map (fun a => (a, f a)) := by
  intro l
  induction l with
  | nil => rfl
  | cons a t ih => simp only [List.map_cons, List.zip_cons_cons, ih]

/-- With at least one parsed name, `_arun` succeeds and returns one
`shoeOutcome` per parsed name, in parsed-name order, keyed by the original
query string. -/
lemma arun_ok_of_parse_ne_nil (search : SearchBackend) (shoe_names : String)
    (h : parse_shoe_names shoe_names 5 ≠ []) :
    AsyncShoeSearchTool.arun search 5 shoe_names
      = .ok { query := shoe_names,
              shoes := (parse_shoe_names shoe_names 5).map (shoeOutcome search) } := by
  have hne : (parse_shoe_names shoe_names 5).isEmpty = false := by
    cases hn : parse_shoe_names shoe_names 5 with
    | nil => exact absurd hn h
    | cons a t => rfl
  simp only [AsyncShoeSearchTool.arun, hne, Bool.false_eq_true, if_false,
    zip_self_map, List.map_map, Except.ok.injEq]
  rfl

/-- The record built for a shoe name carries that name, whether the lookup
succeeded or failed. -/
lemma shoeOutcome_name (search : SearchBackend) (n : String) :
    (shoeOutcome search n).name = n := by
  unfold shoeOutcome AsyncShoeSearchTool.search_single
  cases search (AsyncShoeSearchTool.build_query n) with
  | error e => rfl
  | ok response => rfl

/-! ## Claim theorems -/

/-- C10: for every shoe name and provider response, the single-shoe and the
multi-shoe response parsers produce equal ShoeSpecs records — the two
`_parse_response` implementations are extensionally the same function. -/
theorem C10_parse_response_equivalence (shoe_name : String) (response : TavilyResponse) :
    ShoeSearchTool.parse_response shoe_name response
      = AsyncShoeSearchTool.parse_response shoe_name response := rfl

/-- C8: when the first model response of a conversation carries zero tool-call
requests, `agent.run` terminates after exactly one model invocation and
returns the text of that response unchanged, whatever the rest of the script
would have answered. -/
theorem C8_zero_toolcalls_one_invocation (tools : List RegisteredTool)
    (response : ModelResponse) (rest : List ModelResponse)
    (user_input : String) (chat_history : List Message)
    (h : response.tool_calls = []) :
    ShoeDiscoveryAgent.run tools (response :: rest) user_input chat_history
      = .ok (some response.content, 1) := by
  simp [ShoeDiscoveryAgent.run, ShoeDiscoveryAgent.runAux, ShoeDiscoveryAgent.runStep, h]

/-- Witness for C8 at a concrete conversation. -/
theorem C8_zero_toolcalls_one_invocation_witness :
    ShoeDiscoveryAgent.run [] [{ content := "Final answer.", tool_calls := [] }] "hello" []
      = .ok (some "Final answer.", 1) :=
  C8_zero_toolcalls_one_invocation [] { content := "Final answer.", tool_calls := [] } []
    "hello" [] rfl

/-- C1: whenever the loop proceeds from a response to the next model
invocation (`runStep` yields a next working list), the new working list is the
old one plus the assistant response plus exactly one Tool Result per tool-call
request, whose call ids are those of the requests in request order (hence
distinct whenever the request ids are, and each present in the request set). -/
theorem C1_one_toolResult_per_request (tools : List RegisteredTool)
    (messages msgs' : List Message) (response : ModelResponse)
    (h : ShoeDiscoveryAgent.runStep tools messages response = .ok (.inl msgs')) :
    ∃ toolMsgs : List Message,
      msgs' = messages ++ [Message.assistant response] ++ toolMsgs ∧
      toolMsgs.length = response.tool_calls.length ∧
      toolMsgs.map Message.toolId = response.tool_calls.map (fun tc => some tc.id) ∧
      ((response.tool_calls.map ToolCall.id).Nodup → (toolMsgs.map Message.toolId).Nodup) ∧
      (∀ script n, ShoeDiscoveryAgent.runAux tools (response :: script) messages n
          = ShoeDiscoveryAgent.runAux tools script msgs' (n + 1)) := by
  have hstep := h
  unfold ShoeDiscoveryAgent.runStep at h
  by_cases he : response.tool_calls.isEmpty
  · rw [if_pos he] at h
    exact absurd h (by simp)
  · rw [if_neg he] at h
    cases hec : ShoeDiscoveryAgent.execCalls tools response.tool_calls with
    | error e => rw [hec] at h; exact absurd h (by simp)
    | ok toolMsgs =>
      rw [hec] at h
      simp only [Except.ok.injEq, Sum.inl.injEq] at h
      have hids := execCalls_ok_toolIds tools response.tool_calls toolMsgs hec
      refine ⟨toolMsgs, h.symm, ?_, hids, ?_, ?_⟩
      · have hlen := congrArg List.length hids
        simpa using hlen
      · intro hnd
        rw [hids]
        have hmm : response.tool_calls.map (fun tc => some tc.id)
            = (response.tool_calls.map ToolCall.id).map Option.some := by
          simp [List.map_map]
        rw [hmm]
        exact hnd.map (Option.some_injective _)
      · intro script n
        simp [ShoeDiscoveryAgent.runAux, hstep]

/-- A one-tool registry used by the C1 witness. -/
def c1Tools : List RegisteredTool :=
  [{ name := "echo_tool", arun := fun input => .ok ("R:" ++ input) }]

/-- A response with two tool-call requests, used by the C1 witness. -/
def c1Response : ModelResponse :=
  { content := ""
    tool_calls :=
      [ { name := "echo_tool", args := { shoe_name := some "x" }, id := "call_a" },
        { name := "echo_tool", args := { shoe_names := some "y" }, id := "call_b" } ] }

/-- Witness for C1 at a concrete response with two tool calls. -/
theorem C1_one_toolResult_per_request_witness :
    ∃ toolMsgs : List Message,
      [Message.assistant c1Response, Message.tool "R:x" "call_a", Message.tool "R:y" "call_b"]
        = [] ++ [Message.assistant c1Response] ++ toolMsgs ∧
      toolMsgs.length = c1Response.tool_calls.length ∧
      toolMsgs.map Message.toolId = c1Response.tool_calls.map (fun tc => some tc.id) ∧
      ((c1Response.tool_calls.map ToolCall.id).Nodup → (toolMsgs.map Message.toolId).Nodup) ∧
      (∀ script n, ShoeDiscoveryAgent.runAux c1Tools (c1Response :: script) [] n
          = ShoeDiscoveryAgent.runAux c1Tools script
              [Message.assistant c1Response, Message.tool "R:x" "call_a",
               Message.tool "R:y" "call_b"] (n + 1)) :=
  C1_one_toolResult_per_request c1Tools []
    [Message.assistant c1Response, Message.tool "R:x" "call_a", Message.tool "R:y" "call_b"]
    c1Response rfl

/-- C2 (amended): when a tool-call request names a tool not in the registry,
`_execute_tool` raises `ValueError("Tool <name> not found")` and `agent.run`
— which has no handler around tool execution — propagates it to the caller,
aborting the loop; no Unknown-Tool error string is fed back as a Tool Result. -/
theorem C2_unknown_tool_raises (tools : List RegisteredTool) (tool_name : String)
    (args : ToolArgs) (h : tool_name ∉ tools.map RegisteredTool.name) :
    ShoeDiscoveryAgent.execute_tool tools tool_name args
      = .error ("Tool " ++ tool_name ++ " not found") ∧
    ∀ content cid rest user_input chat_history,
      ShoeDiscoveryAgent.run tools
          ({ content := content, tool_calls := [{ name := tool_name, args := args, id := cid }] }
            :: rest) user_input chat_history
        = .error ("Tool " ++ tool_name ++ " not found") := by
  have hfind : tools.find? (fun t => t.name == tool_name) = none := by
    rw [List.find?_eq_none]
    intro t ht
    simp only [beq_iff_eq]
    intro hcontra
    exact h (hcontra ▸ List.mem_map_of_mem RegisteredTool.name ht)
  have hex : ShoeDiscoveryAgent.execute_tool tools tool_name args
      = .error ("Tool " ++ tool_name ++ " not found") := by
    simp [ShoeDiscoveryAgent.execute_tool, hfind]
  refine ⟨hex, ?_⟩
  intro content cid rest user_input chat_history
  simp [ShoeDiscoveryAgent.run, ShoeDiscoveryAgent.runAux, ShoeDiscoveryAgent.runStep,
    ShoeDiscoveryAgent.execCalls, hex]

/-- Witness for C2 against the actual registry: the name "bogus" is
registered under neither tool. -/
theorem C2_unknown_tool_raises_witness :
    ShoeDiscoveryAgent.execute_tool (get_shoe_tools emptySearch emptySearch) "bogus" {}
      = .error ("Tool " ++ "bogus" ++ " not found") ∧
    ∀ content cid rest user_input chat_history,
      ShoeDiscoveryAgent.run (get_shoe_tools emptySearch emptySearch)
          ({ content := content, tool_calls := [{ name := "bogus", args := {}, id := cid }] }
            :: rest) user_input chat_history
        = .error ("Tool " ++ "bogus" ++ " not found") :=
  C2_unknown_tool_raises (get_shoe_tools emptySearch emptySearch) "bogus" {} (by decide)

/-- Counterexample to C2 as stated: a conversation whose first response
requests the unregistered tool "bogus" makes `agent.run` raise
`ValueError("Tool bogus not found")` to the caller — the loop aborts instead
of surfacing the error as that call's Tool Result and iterating on to the
scripted final answer. -/
theorem C2_counterexample :
    ShoeDiscoveryAgent.run (get_shoe_tools emptySearch emptySearch)
        [{ content := "", tool_calls := [{ name := "bogus", args := {}, id := "call_1" }] },
         { content := "done", tool_calls := [] }] "hi" []
      = .error "Tool bogus not found" ∧
    ∀ final, ShoeDiscoveryAgent.run (get_shoe_tools emptySearch emptySearch)
        [{ content := "", tool_calls := [{ name := "bogus", args := {}, id := "call_1" }] },
         { content := "done", tool_calls := [] }] "hi" []
      ≠ .ok final := by
  refine ⟨rfl, ?_⟩
  intro final hcontra
  rw [show ShoeDiscoveryAgent.run (get_shoe_tools emptySearch emptySearch)
        [{ content := "", tool_calls := [{ name := "bogus", args := {}, id := "call_1" }] },
         { content := "done", tool_calls := [] }] "hi" []
      = .error "Tool bogus not found" from rfl] at hcontra
  exact Except.noConfusion hcontra

/-- C6 (amended): when the multi-shoe input parses to zero valid names, the
adapter raises `ToolException("Multi-shoe search failed: No valid shoe names
provided")` (the Invalid-Input error re-wrapped by the enclosing handler), and
since `agent.run` calls `tool._arun` with no handler, the exception propagates
out of the orchestration loop instead of being surfaced as that call's Tool
Result content. -/
theorem C6_empty_parse_raises (searchS searchA : SearchBackend) (input : String)
    (h : parse_shoe_names input 5 = []) :
    AsyncShoeSearchTool.arun searchA 5 input
      = .error "Multi-shoe search failed: No valid shoe names provided" ∧
    ∀ content cid opt rest user_input chat_history,
      ShoeDiscoveryAgent.run (get_shoe_tools searchS searchA)
          ({ content := content,
             tool_calls := [{ name := "multi_shoe_search",
                              args := { shoe_name := opt, shoe_names := some input },
                              id := cid }] } :: rest) user_input chat_history
        = .error "Multi-shoe search failed: No valid shoe names provided" := by
  have harun : AsyncShoeSearchTool.arun searchA 5 input
      = .error "Multi-shoe search failed: No valid shoe names provided" := by
    simp [AsyncShoeSearchTool.arun, h]
  refine ⟨harun, ?_⟩
  intro content cid opt rest user_input chat_history
  have hex : ShoeDiscoveryAgent.execute_tool (get_shoe_tools searchS searchA)
      "multi_shoe_search" { shoe_name := opt, shoe_names := some input }
      = .error "Multi-shoe search failed: No valid shoe names provided" := by
    show AsyncShoeSearchTool.arunStr searchA 5 input = _
    simp [AsyncShoeSearchTool.arunStr, harun, Except.map]
  simp [ShoeDiscoveryAgent.run, ShoeDiscoveryAgent.runAux, ShoeDiscoveryAgent.runStep,
    ShoeDiscoveryAgent.execCalls, hex]

/-- Witness for C6 at the input ", ," (whitespace and commas only). -/
theorem C6_empty_parse_raises_witness :
    AsyncShoeSearchTool.arun emptySearch 5 ", ,"
      = .error "Multi-shoe search failed: No valid shoe names provided" ∧
    ∀ content cid opt rest user_input chat_history,
      ShoeDiscoveryAgent.run (get_shoe_tools emptySearch emptySearch)
          ({ content := content,
             tool_calls := [{ name := "multi_shoe_search",
                              args := { shoe_name := opt, shoe_names := some ", ," },
                              id := cid }] } :: rest) user_input chat_history
        = .error "Multi-shoe search failed: No valid shoe names provided" :=
  C6_empty_parse_raises emptySearch emptySearch ", ," (by decide)

/-- Counterexample to C6 as stated: with the first response requesting
`multi_shoe_search` on the all-blank input ", ,", `agent.run` raises the
Invalid-Input ToolException to the caller — it never returns normally, so the
error is not surfaced as Tool Result content and the loop does not continue. -/
theorem C6_counterexample :
    ShoeDiscoveryAgent.run (get_shoe_tools emptySearch emptySearch)
        [{ content := "",
           tool_calls := [{ name := "multi_shoe_search",
                            args := { shoe_names := some ", ," }, id := "c1" }] }] "compare" []
      = .error "Multi-shoe search failed: No valid shoe names provided" ∧
    ∀ final, ShoeDiscoveryAgent.run (get_shoe_tools emptySearch emptySearch)
        [{ content := "",
           tool_calls := [{ name := "multi_shoe_search",
                            args := { shoe_names := some ", ," }, id := "c1" }] }] "compare" []
      ≠ .ok final := by
  refine ⟨rfl, ?_⟩
  intro final hcontra
  rw [show ShoeDiscoveryAgent.run (get_shoe_tools emptySearch emptySearch)
        [{ content := "",
           tool_calls := [{ name := "multi_shoe_search",
                            args := { shoe_names := some ", ," }, id := "c1" }] }] "compare" []
      = .error "Multi-shoe search failed: No valid shoe names provided" from rfl] at hcontra
  exact Except.noConfusion hcontra

/-- C4 (amended): a multi-shoe lookup with at least one valid parsed name
succeeds, and its ShoeSearchResult has exactly one ShoeSpecs per parsed name
(non-empty after trimming, capped at 5, duplicates preserved — the code does
not deduplicate), named by and ordered as the parsed names. -/
theorem C4_shoes_match_parsed_names (search : SearchBackend) (shoe_names : String)
    (h : parse_shoe_names shoe_names 5 ≠ []) :
    ∃ r, AsyncShoeSearchTool.arun search 5 shoe_names = .ok r ∧
      r.shoes.map ShoeSpecs.name = parse_shoe_names shoe_names 5 ∧
      r.shoes.length = (parse_shoe_names shoe_names 5).length ∧
      r.query = shoe_names := by
  refine ⟨_, arun_ok_of_parse_ne_nil search shoe_names h, ?_, by simp, rfl⟩
  rw [List.map_map]
  have hcomp : ShoeSpecs.name ∘ shoeOutcome search = fun n => n := by
    funext n
    exact shoeOutcome_name search n
  rw [hcomp]
  exact List.map_id' _

/-- Witness for C4 at the input of the claim (one blank, one duplicate). -/
theorem C4_shoes_match_parsed_names_witness :
    ∃ r, AsyncShoeSearchTool.arun emptySearch 5
        "Nike Pegasus 41, , Brooks Ghost 16, Brooks Ghost 16" = .ok r ∧
      r.shoes.map ShoeSpecs.name
        = parse_shoe_names "Nike Pegasus 41, , Brooks Ghost 16, Brooks Ghost 16" 5 ∧
      r.shoes.length
        = (parse_shoe_names "Nike Pegasus 41, , Brooks Ghost 16, Brooks Ghost 16" 5).length ∧
      r.query = "Nike Pegasus 41, , Brooks Ghost 16, Brooks Ghost 16" :=
  C4_shoes_match_parsed_names emptySearch
    "Nike Pegasus 41, , Brooks Ghost 16, Brooks Ghost 16" (by decide)

/-- Counterexample to C4 as stated: the input with one blank and one duplicate
name yields three shoes — the blank is dropped but the duplicate "Brooks Ghost
16" is kept twice, so the count is not the number of distinct names (2). -/
theorem C4_counterexample :
    (AsyncShoeSearchTool.arun emptySearch 5
        "Nike Pegasus 41, , Brooks Ghost 16, Brooks Ghost 16").map
      (fun r => r.shoes.map ShoeSpecs.name)
      = .ok ["Nike Pegasus 41", "Brooks Ghost 16", "Brooks Ghost 16"] ∧
    (AsyncShoeSearchTool.arun emptySearch 5
        "Nike Pegasus 41, , Brooks Ghost 16, Brooks Ghost 16").map
      (fun r => r.shoes.length) = .ok 3 ∧
    (Except.ok 3 : Except String Nat) ≠ .ok 2 := by
  refine ⟨rfl, rfl, ?_⟩
  intro hcontra
  simp at hcontra

/-- C5: with at least one parsed name, the multi-shoe lookup always succeeds
with exactly one entry per parsed name in input order, each entry depending
only on the outcome of its own lookup: a failing lookup contributes a
ShoeSpecs whose summary states the failure, a successful one contributes the
successful record itself — so a per-name failure never shrinks the result
list, alters the siblings, or fails the overall call. -/
theorem C5_per_name_failure_isolation (search : SearchBackend) (shoe_names : String)
    (h : parse_shoe_names shoe_names 5 ≠ []) :
    ∃ r, AsyncShoeSearchTool.arun search 5 shoe_names = .ok r ∧
      r.shoes.length = (parse_shoe_names shoe_names 5).length ∧
      r.shoes = (parse_shoe_names shoe_names 5).map (shoeOutcome search) ∧
      (∀ n e, n ∈ parse_shoe_names shoe_names 5 →
        AsyncShoeSearchTool.search_single search n = .error e →
          ({ name := n, summary := "Search failed: " ++ e } : ShoeSpecs) ∈ r.shoes) ∧
      (∀ n specs, n ∈ parse_shoe_names shoe_names 5 →
        AsyncShoeSearchTool.search_single search n = .ok specs → specs ∈ r.shoes) := by
  refine ⟨_, arun_ok_of_parse_ne_nil search shoe_names h, by simp, rfl, ?_, ?_⟩
  · intro n e hn he
    refine List.mem_map.mpr ⟨n, hn, ?_⟩
    simp [shoeOutcome, he]
  · intro n specs hn hspecs
    refine List.mem_map.mpr ⟨n, hn, ?_⟩
    simp [shoeOutcome, hspecs]

/-- A backend that fails with a transport error exactly on the lookup for
shoe name "B" and succeeds on every other query. -/
def c5Search : SearchBackend := fun q =>
  if q = AsyncShoeSearchTool.build_query "B" then .error "ReadTimeout"
  else .ok { answer := some "found specs" }

/-- Witness for C5: three concurrent lookups, the middle one failing. -/
theorem C5_per_name_failure_isolation_witness :
    ∃ r, AsyncShoeSearchTool.arun c5Search 5 "A, B, C" = .ok r ∧
      r.shoes.length = (parse_shoe_names "A, B, C" 5).length ∧
      r.shoes = (parse_shoe_names "A, B, C" 5).map (shoeOutcome c5Search) ∧
      (∀ n e, n ∈ parse_shoe_names "A, B, C" 5 →
        AsyncShoeSearchTool.search_single c5Search n = .error e →
          ({ name := n, summary := "Search failed: " ++ e } : ShoeSpecs) ∈ r.shoes) ∧
      (∀ n specs, n ∈ parse_shoe_names "A, B, C" 5 →
        AsyncShoeSearchTool.search_single c5Search n = .ok specs → specs ∈ r.shoes) :=
  C5_per_name_failure_isolation c5Search "A, B, C" (by decide)

/-- C7: the multi-shoe input parsing keeps at most 5 names, keeps no empty
entry, and returns an initial segment of the comma-split trimmed non-empty
pieces; seven valid comma-separated names yield exactly the first five, in
input order. -/
theorem C7_split_trim_cap_five :
    (∀ s : String, (parse_shoe_names s 5).length ≤ 5) ∧
    (∀ s : String, ∀ n ∈ parse_shoe_names s 5, n ≠ "") ∧
    (∀ s : String, ∃ t, parse_shoe_names s 5 ++ t
        = ((pySplit ',' s).map pyStrip).filter (fun n => n ≠ "")) ∧
    ((AsyncShoeSearchTool.arun emptySearch 5 "n1, n2, n3, n4, n5, n6, n7").map
        (fun r => r.shoes.map ShoeSpecs.name) = .ok ["n1", "n2", "n3", "n4", "n5"]) := by
  refine ⟨?_, ?_, ?_, rfl⟩
  · intro s
    exact List.length_take_le 5 _
  · intro s n hn
    have hmem := List.take_subset 5 _ hn
    have hp := (List.mem_filter.mp hmem).2
    simpa using hp
  · intro s
    exact ⟨_, List.take_append_drop 5 _⟩

/-- Unfolded form of the kept-sources computation of the response parser. -/
lemma parse_response_sources (shoe_name : String) (response : TavilyResponse) :
    (ShoeSearchTool.parse_response shoe_name response).sources
      = ((response.results.filter (fun r => decide ((r.score.getD 0) > (0.5 : ℚ)))).map
          (fun r =>
            { title := r.title.getD ""
              url := r.url.getD ""
              content := pySlice (r.content.getD "") 500
              score := r.score.getD 0 : ShoeSource })).take 3 := rfl

/-- The slice of a string to its first `n` characters has length at most `n`. -/
lemma pySlice_length_le (s : String) (n : Nat) : (pySlice s n).length ≤ n := by
  show (s.data.take n).length ≤ n
  exact List.length_take_le n s.data

/-- A response whose passing scores arrive in ascending provider order,
refuting sorted-by-score selection. -/
def c3ScoresAscending : TavilyResponse :=
  { results := [ { title := some "r1", score := some 0.6 },
                 { title := some "r2", score := some 0.7 },
                 { title := some "r3", score := some 0.8 },
                 { title := some "r4", score := some 0.9 } ] }

/-- The raw-score example of the claim: scores [0.9, 0.4, 0.6, 0.51]. -/
def c3ClaimExample : TavilyResponse :=
  { answer := some "synthesized",
    results := [ { title := some "r1", url := some "u1", content := some "c1", score := some 0.9 },
                 { title := some "r2", url := some "u2", content := some "c2", score := some 0.4 },
                 { title := some "r3", url := some "u3", content := some "c3", score := some 0.6 },
                 { title := some "r4", url := some "u4", content := some "c4", score := some 0.51 } ] }

/-- Counterexample to C3 as stated: on raw scores [0.6, 0.7, 0.8, 0.9] (all
passing the 0.5 threshold) the parser keeps the FIRST three in provider order,
[0.6, 0.7, 0.8] — neither the top 3 by score nor ordered highest-first (the
0.9 entry, the highest-scored raw result, is dropped). -/
theorem C3_counterexample :
    ((ShoeSearchTool.parse_response "x" c3ScoresAscending).sources.map ShoeSource.score
      = [0.6, 0.7, 0.8]) ∧
    ((ShoeSearchTool.parse_response "x" c3ScoresAscending).sources.map ShoeSource.score
      ≠ [0.9, 0.8, 0.7]) := by
  have hs : (ShoeSearchTool.parse_response "x" c3ScoresAscending).sources.map ShoeSource.score
      = [0.6, 0.7, 0.8] := by
    norm_num [ShoeSearchTool.parse_response, c3ScoresAscending]
  refine ⟨hs, ?_⟩
  rw [hs]
  intro hcontra
  rw [List.cons.injEq] at hcontra
  exact absurd hcontra.1 (by norm_num)

/-- C3 (amended): the parser keeps the results with relevance score > 0.5 in
provider order and takes the first 3 of those (it does not sort by score):
the kept-source count is the passing count capped at 3, kept scores are an
order-preserving subsequence of the raw scores, every kept score exceeds 0.5,
and on the raw scores [0.9, 0.4, 0.6, 0.51] exactly the 0.9, 0.6 and 0.51
entries are kept, in that order, and the 0.4 entry is dropped. -/
theorem C3_filter_first_three :
    (∀ shoe_name response,
      (ShoeSearchTool.parse_response shoe_name response).sources.length
        = min 3 (response.results.countP (fun r => decide ((r.score.getD 0) > (0.5 : ℚ))))) ∧
    (∀ shoe_name response,
      ((ShoeSearchTool.parse_response shoe_name response).sources.map ShoeSource.score).Sublist
        (response.results.map (fun r => r.score.getD 0))) ∧
    (∀ shoe_name response, ∀ s ∈ (ShoeSearchTool.parse_response shoe_name response).sources,
      (0.5 : ℚ) < s.score) ∧
    ((ShoeSearchTool.parse_response "x" c3ClaimExample).sources.map
        (fun s => (s.title, s.score)) = [("r1", (0.9 : ℚ)), ("r3", 0.6), ("r4", 0.51)]) := by
  refine ⟨?_, ?_, ?_, ?_⟩
  · intro shoe_name response
    rw [parse_response_sources, List.length_take, List.length_map,
      List.countP_eq_length_filter]
  · intro shoe_name response
    rw [parse_response_sources, List.map_take, List.map_map]
    refine List.Sublist.trans (List.take_sublist 3 _) ?_
    exact (List.filter_sublist _).map _
  · intro shoe_name response s hs
    rw [parse_response_sources] at hs
    have hs' := List.take_subset 3 _ hs
    obtain ⟨r, hrmem, hmk⟩ := List.mem_map.mp hs'
    have hp := (List.mem_filter.mp hrmem).2
    rw [← hmk]
    exact of_decide_eq_true hp
  · norm_num [ShoeSearchTool.parse_response, c3ClaimExample]

/-- A 700-character extracted text. -/
def c9LongContent : String := String.mk (List.replicate 700 'a')

/-- A response with one passing result whose content is 700 characters. -/
def c9Example : TavilyResponse :=
  { results := [ { title := some "review", url := some "u",
                   content := some c9LongContent, score := some 0.9 } ] }

/-- C9: every kept source stores the first 500 characters of the extracted
text of some raw result (so its length is at most 500), and the concrete
700-character extracted text is stored as exactly its first 500 characters. -/
theorem C9_content_truncated_500 :
    (∀ shoe_name response, ∀ s ∈ (ShoeSearchTool.parse_response shoe_name response).sources,
      s.content.length ≤ 500 ∧
      ∃ r ∈ response.results, s.content = pySlice (r.content.getD "") 500) ∧
    ((ShoeSearchTool.parse_response "x" c9Example).sources.map ShoeSource.content
      = [String.mk (List.replicate 500 'a')]) := by
  constructor
  · intro shoe_name response s hs
    rw [parse_response_sources] at hs
    have hs' := List.take_subset 3 _ hs
    obtain ⟨r, hrmem, hmk⟩ := List.mem_map.mp hs'
    refine ⟨?_, r, (List.mem_filter.mp hrmem).1, ?_⟩
    · rw [← hmk]
      exact pySlice_length_le _ 500
    · rw [← hmk]
  · have hc : pySlice c9LongContent 500 = String.mk (List.replicate 500 'a') := by
      show String.mk ((List.replicate 700 'a').take 500) = _
      rw [List.take_replicate]
      norm_num
    norm_num [ShoeSearchTool.parse_response, c9Example, hc]
